import Mathlib

/-!
Shallow embedding of the collision geometry and the `Cloud` entity of the
dino-runner repository.  Coordinates are device-independent pixels, modelled
by `Int`; scroll speeds may be fractional and are modelled by `Rat`.

The collision code (`boxCompare`, `createAdjustedCollisionBox`,
`checkForCollision`) is translated from the utility module
(`src/unnamed/part_000`); the cloud code (`getRandomNum`, `Cloud`) from
`src/src/Cloud.js` together with `getRandomNum` from the utility module.
-/

/-- Axis-aligned rectangle `{x, y, width, height}` (`CollisionBox` of the
sprite-definition module, as used by the collision code). -/
structure CollisionBox where
  x : Int
  y : Int
  width : Int
  height : Int
deriving DecidableEq, Repr

/-- Embeds `boxCompare(tRexBox, obstacleBox)`: the Axis-Aligned Bounding Box
intersection test, with strict comparisons throughout. -/
def boxCompare (tRexBox obstacleBox : CollisionBox) : Bool :=
  let crashed := false
  let obstacleBoxX := obstacleBox.x
  let _obstacleBoxY := obstacleBox.y
  if tRexBox.x < obstacleBoxX + obstacleBox.width ∧
      tRexBox.x + tRexBox.width > obstacleBoxX ∧
      tRexBox.y < obstacleBox.y + obstacleBox.height ∧
      tRexBox.height + tRexBox.y > obstacleBox.y then
    true
  else
    crashed

/-- Embeds `createAdjustedCollisionBox(box, adjustment)`: translate `box` by
the origin of `adjustment`, keeping its width and height. -/
def createAdjustedCollisionBox (box adjustment : CollisionBox) : CollisionBox :=
  { x := box.x + adjustment.x
    y := box.y + adjustment.y
    width := box.width
    height := box.height }

/-- The fields of `tRex.config` read by `checkForCollision`. -/
structure TrexConfig where
  WIDTH : Int
  HEIGHT : Int
deriving DecidableEq, Repr

/-- The fields of the `Trex` object read by `checkForCollision`. -/
structure Trex where
  xPos : Int
  yPos : Int
  config : TrexConfig
  ducking : Bool
deriving DecidableEq, Repr

/-- The fields of `obstacle.typeConfig` read by `checkForCollision`. -/
structure ObstacleTypeConfig where
  width : Int
  height : Int
deriving DecidableEq, Repr

/-- The fields of the `Obstacle` object read by `checkForCollision`. -/
structure Obstacle where
  xPos : Int
  yPos : Int
  typeConfig : ObstacleTypeConfig
  size : Int
  collisionBoxes : List CollisionBox
deriving DecidableEq, Repr

/-- The global `Runner`/`Trex` state read by `checkForCollision`:
`Runner.defaultDimensions.WIDTH`, `Runner.isAltGameModeEnabled()`,
`Runner.spriteDefinition.TREX.COLLISION_BOXES`, and the static
`Trex.collisionBoxes.DUCKING` / `Trex.collisionBoxes.RUNNING` tables. -/
structure RunnerEnv where
  defaultDimensionsWIDTH : Int
  altGameModeEnabled : Bool
  altTrexCollisionBoxes : List CollisionBox
  duckingCollisionBoxes : List CollisionBox
  runningCollisionBoxes : List CollisionBox
deriving DecidableEq, Repr

/-- The t-rex sub-box table selected by `checkForCollision`: the alt-game-mode
table when that mode is enabled, else the ducking or running table. -/
def tRexSubBoxes (env : RunnerEnv) (tRex : Trex) : List CollisionBox :=
  if env.altGameModeEnabled then env.altTrexCollisionBoxes
  else if tRex.ducking then env.duckingCollisionBoxes
  else env.runningCollisionBoxes

/-- The inner `for i` loop of `checkForCollision`: walk the obstacle's
sub-boxes for a fixed t-rex sub-box `tBox`, returning the first adjusted pair
that `boxCompare` reports as crashed. -/
def innerLoop (tBox tRexBox obstacleBox : CollisionBox) :
    List CollisionBox → Option (CollisionBox × CollisionBox)
  | [] => none
  | oBox :: rest =>
    let adjTrexBox := createAdjustedCollisionBox tBox tRexBox
    let adjObstacleBox := createAdjustedCollisionBox oBox obstacleBox
    let crashed := boxCompare adjTrexBox adjObstacleBox
    if crashed then some (adjTrexBox, adjObstacleBox)
    else innerLoop tBox tRexBox obstacleBox rest

/-- The outer `for t` loop of `checkForCollision`: walk the t-rex sub-boxes,
running `innerLoop` over all obstacle sub-boxes for each. -/
def outerLoop (tRexBox obstacleBox : CollisionBox)
    (obstacleBoxes : List CollisionBox) :
    List CollisionBox → Option (CollisionBox × CollisionBox)
  | [] => none
  | tBox :: rest =>
    match innerLoop tBox tRexBox obstacleBox obstacleBoxes with
    | some p => some p
    | none => outerLoop tRexBox obstacleBox obstacleBoxes rest

/-- Embeds `checkForCollision(obstacle, tRex)` (the optional debug canvas
argument only draws boxes and is omitted).  Builds the two coarse boxes inset
by 1 pixel for the sprite border, fast-rejects when they do not overlap, and
otherwise scans all sub-box pairs, t-rex outer, obstacle inner. -/
def checkForCollision (env : RunnerEnv) (obstacle : Obstacle) (tRex : Trex) :
    Option (CollisionBox × CollisionBox) :=
  let _obstacleBoxXPos := env.defaultDimensionsWIDTH + obstacle.xPos
  let tRexBox : CollisionBox :=
    { x := tRex.xPos + 1
      y := tRex.yPos + 1
      width := tRex.config.WIDTH - 2
      height := tRex.config.HEIGHT - 2 }
  let obstacleBox : CollisionBox :=
    { x := obstacle.xPos + 1
      y := obstacle.yPos + 1
      width := obstacle.typeConfig.width * obstacle.size - 2
      height := obstacle.typeConfig.height - 2 }
  if boxCompare tRexBox obstacleBox then
    let collisionBoxes := obstacle.collisionBoxes
    let tRexCollisionBoxes := tRexSubBoxes env tRex
    outerLoop tRexBox obstacleBox collisionBoxes tRexCollisionBoxes
  else
    none

/-- Instrumented inner loop: same result as `innerLoop`, additionally counting
how many sub-box pairs were tested with `boxCompare`. -/
def innerLoopInstr (tBox tRexBox obstacleBox : CollisionBox) :
    List CollisionBox → Option (CollisionBox × CollisionBox) × Nat
  | [] => (none, 0)
  | oBox :: rest =>
    let adjTrexBox := createAdjustedCollisionBox tBox tRexBox
    let adjObstacleBox := createAdjustedCollisionBox oBox obstacleBox
    if boxCompare adjTrexBox adjObstacleBox then
      (some (adjTrexBox, adjObstacleBox), 1)
    else
      let r := innerLoopInstr tBox tRexBox obstacleBox rest
      (r.1, r.2 + 1)

/-- Instrumented outer loop: same result as `outerLoop`, additionally counting
how many sub-box pairs were tested with `boxCompare`. -/
def outerLoopInstr (tRexBox obstacleBox : CollisionBox)
    (obstacleBoxes : List CollisionBox) :
    List CollisionBox → Option (CollisionBox × CollisionBox) × Nat
  | [] => (none, 0)
  | tBox :: rest =>
    let r := innerLoopInstr tBox tRexBox obstacleBox obstacleBoxes
    match r.1 with
    | some p => (some p, r.2)
    | none =>
      let r2 := outerLoopInstr tRexBox obstacleBox obstacleBoxes rest
      (r2.1, r.2 + r2.2)

/-- Instrumented `checkForCollision`: same result, paired with the number of
sub-box `boxCompare` tests performed. -/
def checkForCollisionInstr (env : RunnerEnv) (obstacle : Obstacle)
    (tRex : Trex) : Option (CollisionBox × CollisionBox) × Nat :=
  let tRexBox : CollisionBox :=
    { x := tRex.xPos + 1
      y := tRex.yPos + 1
      width := tRex.config.WIDTH - 2
      height := tRex.config.HEIGHT - 2 }
  let obstacleBox : CollisionBox :=
    { x := obstacle.xPos + 1
      y := obstacle.yPos + 1
      width := obstacle.typeConfig.width * obstacle.size - 2
      height := obstacle.typeConfig.height - 2 }
  if boxCompare tRexBox obstacleBox then
    outerLoopInstr tRexBox obstacleBox obstacle.collisionBoxes
      (tRexSubBoxes env tRex)
  else
    (none, 0)

/-- The coarse (outer) bounding box `checkForCollision` builds for the t-rex:
the sprite rectangle inset by 1 pixel on each side. -/
def tRexCoarseBox (tRex : Trex) : CollisionBox :=
  { x := tRex.xPos + 1
    y := tRex.yPos + 1
    width := tRex.config.WIDTH - 2
    height := tRex.config.HEIGHT - 2 }

/-- The coarse (outer) bounding box `checkForCollision` builds for the
obstacle: the sprite rectangle (width scaled by `size`) inset by 1 pixel. -/
def obstacleCoarseBox (obstacle : Obstacle) : CollisionBox :=
  { x := obstacle.xPos + 1
    y := obstacle.yPos + 1
    width := obstacle.typeConfig.width * obstacle.size - 2
    height := obstacle.typeConfig.height - 2 }

/-- The two-phase check parameterised by arbitrary coarse boxes and sub-box
tables: fast-reject on the coarse boxes, then scan sub-box pairs. -/
def collisionCheckWithCoarse (tRexBox obstacleBox : CollisionBox)
    (trexBoxes obstacleBoxes : List CollisionBox) :
    Option (CollisionBox × CollisionBox) :=
  if boxCompare tRexBox obstacleBox then
    outerLoop tRexBox obstacleBox obstacleBoxes trexBoxes
  else
    none

/-- Modelled from the spec words for the detailed phase: list all pairs
(player sub-box × obstacle sub-box) with the player's sub-boxes outer and the
obstacle's inner, translate each sub-box by its parent coarse box's origin,
and return the first translated pair that overlaps. -/
def firstOverlappingPair (tRexBox obstacleBox : CollisionBox)
    (trexBoxes obstacleBoxes : List CollisionBox) :
    Option (CollisionBox × CollisionBox) :=
  (trexBoxes.flatMap fun tBox =>
      obstacleBoxes.map fun oBox =>
        (createAdjustedCollisionBox tBox tRexBox,
         createAdjustedCollisionBox oBox obstacleBox)).find?
    fun p => boxCompare p.1 p.2

/-- Embeds `getRandomNum(min, max)` from the utility module, with the value of
`Math.random()` (a real in `[0, 1)`) passed explicitly:
`Math.floor(rand * (max - min + 1)) + min`. -/
def getRandomNum (min max : Int) (rand : Rat) : Int :=
  ⌊rand * ((max : Rat) - (min : Rat) + 1)⌋ + min

/-- The numeric fields of the static `Cloud.config` table. -/
structure CloudConfig where
  HEIGHT : Int
  MAX_CLOUD_GAP : Int
  MAX_SKY_LEVEL : Int
  MIN_CLOUD_GAP : Int
  MIN_SKY_LEVEL : Int
  WIDTH : Int
deriving DecidableEq, Repr

/-- The mutable fields of a `Cloud` (canvas and sprite position are rendering
state and are omitted). -/
structure Cloud where
  containerWidth : Int
  xPos : Int
  yPos : Int
  remove : Bool
  gap : Int
deriving DecidableEq, Repr

/-- Embeds the static `Cloud.config` object. -/
def Cloud.config : CloudConfig :=
  { HEIGHT := 14
    MAX_CLOUD_GAP := 400
    MAX_SKY_LEVEL := 30
    MIN_CLOUD_GAP := 100
    MIN_SKY_LEVEL := 71
    WIDTH := 46 }

/-- Embeds the `Cloud` constructor followed by `init()`: `xPos` starts at the
container width, `gap` is drawn from `[MIN_CLOUD_GAP, MAX_CLOUD_GAP]`, and
`init` sets `yPos` from `getRandomNum(MAX_SKY_LEVEL, MIN_SKY_LEVEL)` (the
`draw()` call only renders).  The two `Math.random()` draws are passed in. -/
def Cloud.new (containerWidth : Int) (gapRand skyRand : Rat) : Cloud :=
  let c : Cloud :=
    { containerWidth := containerWidth
      xPos := containerWidth
      yPos := 0
      remove := false
      gap := getRandomNum Cloud.config.MIN_CLOUD_GAP Cloud.config.MAX_CLOUD_GAP
        gapRand }
  { c with
      yPos := getRandomNum Cloud.config.MAX_SKY_LEVEL Cloud.config.MIN_SKY_LEVEL
        skyRand }

/-- Embeds `Cloud.isVisible()`: the cloud is on stage while its right edge is
still right of the viewport's left edge. -/
def Cloud.isVisible (c : Cloud) : Bool :=
  decide (c.xPos + Cloud.config.WIDTH > 0)

/-- Embeds `Cloud.update(speed)`: when not yet removed, scroll left by the
ceiling of the speed (the `draw()` call only renders) and mark removable when
no longer visible. -/
def Cloud.update (c : Cloud) (speed : Rat) : Cloud :=
  if !c.remove then
    let c' : Cloud := { c with xPos := c.xPos - ⌈speed⌉ }
    if !c'.isVisible then { c' with remove := true } else c'
  else
    c

/-! Helper lemmas shared by the claim theorems. -/

/-- Characterisation of `boxCompare`: it returns `true` exactly when the four
strict AABB comparisons hold. -/
theorem boxCompare_true_iff (a b : CollisionBox) :
    boxCompare a b = true ↔
      (a.x < b.x + b.width ∧ a.x + a.width > b.x ∧
       a.y < b.y + b.height ∧ a.y + a.height > b.y) := by
  simp only [boxCompare]
  split
  · next h => exact iff_of_true rfl ⟨h.1, h.2.1, h.2.2.1, by omega⟩
  · next h =>
      refine iff_of_false (by simp) fun hc => h ⟨hc.1, hc.2.1, hc.2.2.1, by omega⟩

/-- One direction of symmetry: a reported overlap also holds with the
arguments swapped. -/
theorem boxCompare_true_of_rev (x y : CollisionBox)
    (hxy : boxCompare x y = true) : boxCompare y x = true := by
  have h := (boxCompare_true_iff x y).mp hxy
  exact (boxCompare_true_iff y x).mpr (by omega)

/-- Splitting `List.find?` across an append. -/
theorem find?_append_split (p : α → Bool) (l1 l2 : List α) :
    List.find? p (l1 ++ l2) =
      (match List.find? p l1 with
       | some a => some a
       | none => List.find? p l2) := by
  induction l1 with
  | nil => simp
  | cons x xs ih =>
      simp only [List.cons_append, List.find?]
      cases p x <;> simp [ih]

/-- The inner loop is `find?` over the translated obstacle sub-boxes. -/
theorem innerLoop_eq_find? (tBox tRexBox obstacleBox : CollisionBox)
    (os : List CollisionBox) :
    innerLoop tBox tRexBox obstacleBox os =
      (os.map fun oBox =>
        (createAdjustedCollisionBox tBox tRexBox,
         createAdjustedCollisionBox oBox obstacleBox)).find?
        (fun p => boxCompare p.1 p.2) := by
  induction os with
  | nil => rfl
  | cons o rest ih =>
      simp only [innerLoop, List.map, List.find?]
      cases h : boxCompare (createAdjustedCollisionBox tBox tRexBox)
        (createAdjustedCollisionBox o obstacleBox) <;> simp [h, ih]

/-- The two nested loops compute exactly the first overlapping translated
pair, player sub-boxes outer, obstacle sub-boxes inner. -/
theorem outerLoop_eq_find? (tRexBox obstacleBox : CollisionBox)
    (os ts : List CollisionBox) :
    outerLoop tRexBox obstacleBox os ts =
      firstOverlappingPair tRexBox obstacleBox ts os := by
  induction ts with
  | nil => rfl
  | cons t rest ih =>
      simp only [outerLoop, firstOverlappingPair, List.flatMap_cons,
        find?_append_split, innerLoop_eq_find?]
      cases h : (List.find? (fun p => boxCompare p.1 p.2)
        (List.map (fun oBox => (createAdjustedCollisionBox t tRexBox,
          createAdjustedCollisionBox oBox obstacleBox)) os)) <;>
        simp [h, ih, firstOverlappingPair]

/-- Any pair returned by the inner loop passed `boxCompare`. -/
theorem innerLoop_sound (tBox tRexBox obstacleBox : CollisionBox)
    (os : List CollisionBox) (pr : CollisionBox × CollisionBox)
    (h : innerLoop tBox tRexBox obstacleBox os = some pr) :
    boxCompare pr.1 pr.2 = true := by
  induction os with
  | nil => simp [innerLoop] at h
  | cons o rest ih =>
      simp only [innerLoop] at h
      split at h
      · next hc => cases h; simpa using hc
      · exact ih h

/-- Any pair returned by the outer loop passed `boxCompare`. -/
theorem outerLoop_sound (tRexBox obstacleBox : CollisionBox)
    (os ts : List CollisionBox) (pr : CollisionBox × CollisionBox)
    (h : outerLoop tRexBox obstacleBox os ts = some pr) :
    boxCompare pr.1 pr.2 = true := by
  induction ts with
  | nil => simp [outerLoop] at h
  | cons t rest ih =>
      simp only [outerLoop] at h
      split at h
      · next heq => cases h; exact innerLoop_sound _ _ _ _ _ heq
      · exact ih h

/-- The instrumented inner loop returns the same result as the plain one. -/
theorem innerLoopInstr_fst (tBox tRexBox obstacleBox : CollisionBox)
    (os : List CollisionBox) :
    (innerLoopInstr tBox tRexBox obstacleBox os).1 =
      innerLoop tBox tRexBox obstacleBox os := by
  induction os with
  | nil => rfl
  | cons o rest ih =>
      simp only [innerLoopInstr, innerLoop]
      split <;> simp [ih]

/-- The instrumented outer loop returns the same result as the plain one. -/
theorem outerLoopInstr_fst (tRexBox obstacleBox : CollisionBox)
    (os ts : List CollisionBox) :
    (outerLoopInstr tRexBox obstacleBox os ts).1 =
      outerLoop tRexBox obstacleBox os ts := by
  induction ts with
  | nil => rfl
  | cons t rest ih =>
      simp only [outerLoopInstr, outerLoop, innerLoopInstr_fst]
      cases h : innerLoop t tRexBox obstacleBox os <;> simp [h, ih]

/-- The instrumented check returns the same result as `checkForCollision`. -/
theorem checkForCollisionInstr_fst (env : RunnerEnv) (obstacle : Obstacle)
    (tRex : Trex) :
    (checkForCollisionInstr env obstacle tRex).1 =
      checkForCollision env obstacle tRex := by
  simp only [checkForCollisionInstr, checkForCollision]
  split <;> simp [outerLoopInstr_fst]

/-- `Cloud.update` never modifies `yPos` or `gap`. -/
theorem cloud_update_yPos_gap (c : Cloud) (speed : Rat) :
    (c.update speed).yPos = c.yPos ∧ (c.update speed).gap = c.gap := by
  unfold Cloud.update
  by_cases h : c.remove <;> simp [h]
  split <;> simp

/-- Iterated `Cloud.update` never modifies `yPos` or `gap`. -/
theorem foldl_update_yPos_gap (speeds : List Rat) (c : Cloud) :
    (speeds.foldl Cloud.update c).yPos = c.yPos ∧
    (speeds.foldl Cloud.update c).gap = c.gap := by
  induction speeds generalizing c with
  | nil => exact ⟨rfl, rfl⟩
  | cons s rest ih =>
      rw [List.foldl_cons]
      refine ⟨?_, ?_⟩
      · rw [(ih (c.update s)).1, (cloud_update_yPos_gap c s).1]
      · rw [(ih (c.update s)).2, (cloud_update_yPos_gap c s).2]

/-- For a random draw in `[0, 1)` and `min ≤ max`, `getRandomNum` lands in
`[min, max]`. -/
theorem getRandomNum_bounds (min max : Int) (rand : Rat)
    (hmm : min ≤ max) (h0 : 0 ≤ rand) (h1 : rand < 1) :
    min ≤ getRandomNum min max rand ∧ getRandomNum min max rand ≤ max := by
  have hk : (0 : Rat) < (max : Rat) - (min : Rat) + 1 := by
    have h : ((min : Rat)) ≤ (max : Rat) := by exact_mod_cast hmm
    linarith
  unfold getRandomNum
  constructor
  · have hfl : (0 : Int) ≤ ⌊rand * ((max : Rat) - (min : Rat) + 1)⌋ := by
      apply Int.le_floor.mpr
      simpa using mul_nonneg h0 (le_of_lt hk)
    omega
  · have hfl : ⌊rand * ((max : Rat) - (min : Rat) + 1)⌋ < max - min + 1 := by
      apply Int.floor_lt.mpr
      push_cast
      nlinarith [mul_pos (by linarith : (0 : Rat) < 1 - rand) hk]
    omega

/-! Claim theorems. -/

/-- C1: `boxCompare a b` returns `true` iff `a.x < b.x + b.width`,
`a.x + a.width > b.x`, `a.y < b.y + b.height` and `a.y + a.height > b.y`;
in particular boxes that merely touch on an edge (equality in any of the
four comparisons) do not count as overlapping. -/
theorem boxCompare_strict_aabb (a b : CollisionBox) :
    (boxCompare a b = true ↔
      (a.x < b.x + b.width ∧ a.x + a.width > b.x ∧
       a.y < b.y + b.height ∧ a.y + a.height > b.y)) ∧
    ((a.x = b.x + b.width ∨ a.x + a.width = b.x ∨
      a.y = b.y + b.height ∨ a.y + a.height = b.y) →
      boxCompare a b = false) := by
  refine ⟨boxCompare_true_iff a b, fun h => ?_⟩
  cases hb : boxCompare a b
  · rfl
  · have hp := (boxCompare_true_iff a b).mp hb
    exfalso
    omega

/-- Witness for C1: two boxes touching exactly on a vertical edge are not
reported as overlapping. -/
theorem boxCompare_strict_aabb_witness :
    boxCompare ⟨0, 0, 20, 20⟩ ⟨20, 0, 20, 20⟩ = false :=
  (boxCompare_strict_aabb ⟨0, 0, 20, 20⟩ ⟨20, 0, 20, 20⟩).2
    (Or.inr (Or.inl (by decide)))

/-- C2: when the two coarse inset-by-1 boxes do not overlap,
`checkForCollision` returns none, and (via the instrumented variant) performs
zero sub-box `boxCompare` tests. -/
theorem checkForCollision_fast_reject (env : RunnerEnv) (obstacle : Obstacle)
    (tRex : Trex)
    (h : boxCompare (tRexCoarseBox tRex) (obstacleCoarseBox obstacle) = false) :
    checkForCollision env obstacle tRex = none ∧
    checkForCollisionInstr env obstacle tRex = (none, 0) := by
  unfold tRexCoarseBox obstacleCoarseBox at h
  unfold checkForCollision checkForCollisionInstr
  simp [h]

/-- Witness for C2: an obstacle 200 pixels to the right of the player is
fast-rejected with no sub-box tests. -/
theorem checkForCollision_fast_reject_witness :
    boxCompare (tRexCoarseBox ⟨0, 0, ⟨10, 10⟩, false⟩)
      (obstacleCoarseBox ⟨200, 0, ⟨10, 10⟩, 1, [⟨0, 0, 5, 5⟩]⟩) = false ∧
    (checkForCollision ⟨600, false, [], [], [⟨0, 0, 5, 5⟩]⟩
        ⟨200, 0, ⟨10, 10⟩, 1, [⟨0, 0, 5, 5⟩]⟩ ⟨0, 0, ⟨10, 10⟩, false⟩ = none ∧
      checkForCollisionInstr ⟨600, false, [], [], [⟨0, 0, 5, 5⟩]⟩
        ⟨200, 0, ⟨10, 10⟩, 1, [⟨0, 0, 5, 5⟩]⟩ ⟨0, 0, ⟨10, 10⟩, false⟩ =
        (none, 0)) :=
  ⟨by decide, checkForCollision_fast_reject _ _ _ (by decide)⟩

/-- C3: when the coarse boxes overlap, `checkForCollision` returns the first
pair (player sub-boxes outer, obstacle sub-boxes inner) of sub-boxes,
each translated by its parent coarse box's origin with width and height
unchanged, that `boxCompare` reports as overlapping. -/
theorem checkForCollision_detailed_phase (env : RunnerEnv)
    (obstacle : Obstacle) (tRex : Trex)
    (h : boxCompare (tRexCoarseBox tRex) (obstacleCoarseBox obstacle) = true) :
    checkForCollision env obstacle tRex =
      firstOverlappingPair (tRexCoarseBox tRex) (obstacleCoarseBox obstacle)
        (tRexSubBoxes env tRex) obstacle.collisionBoxes := by
  unfold tRexCoarseBox obstacleCoarseBox at h ⊢
  unfold checkForCollision
  simp only [h, if_true]
  exact outerLoop_eq_find? _ _ _ _

/-- Witness for C3: overlapping coarse boxes make the detailed sub-box scan
decide the result. -/
theorem checkForCollision_detailed_phase_witness :
    boxCompare (tRexCoarseBox ⟨0, 0, ⟨10, 10⟩, false⟩)
      (obstacleCoarseBox ⟨0, 0, ⟨10, 10⟩, 1, [⟨0, 0, 5, 5⟩]⟩) = true ∧
    checkForCollision ⟨600, false, [], [], [⟨0, 0, 5, 5⟩]⟩
        ⟨0, 0, ⟨10, 10⟩, 1, [⟨0, 0, 5, 5⟩]⟩ ⟨0, 0, ⟨10, 10⟩, false⟩ =
      firstOverlappingPair (tRexCoarseBox ⟨0, 0, ⟨10, 10⟩, false⟩)
        (obstacleCoarseBox ⟨0, 0, ⟨10, 10⟩, 1, [⟨0, 0, 5, 5⟩]⟩)
        (tRexSubBoxes ⟨600, false, [], [], [⟨0, 0, 5, 5⟩]⟩
          ⟨0, 0, ⟨10, 10⟩, false⟩)
        [⟨0, 0, 5, 5⟩] :=
  ⟨by decide, checkForCollision_detailed_phase _ _ _ (by decide)⟩

/-- C4: `checkForCollision` builds exactly one coarse box per entity, inset by
1 unit on each side: the player's is
`(xPos + 1, yPos + 1, WIDTH - 2, HEIGHT - 2)` and the obstacle's is
`(xPos + 1, yPos + 1, typeWidth * size - 2, typeHeight - 2)`. -/
theorem checkForCollision_coarse_boxes (env : RunnerEnv) (obstacle : Obstacle)
    (tRex : Trex) :
    checkForCollision env obstacle tRex =
      collisionCheckWithCoarse
        ⟨tRex.xPos + 1, tRex.yPos + 1,
          tRex.config.WIDTH - 2, tRex.config.HEIGHT - 2⟩
        ⟨obstacle.xPos + 1, obstacle.yPos + 1,
          obstacle.typeConfig.width * obstacle.size - 2,
          obstacle.typeConfig.height - 2⟩
        (tRexSubBoxes env tRex) obstacle.collisionBoxes := rfl

/-- C5: `boxCompare` is symmetric in its two arguments. -/
theorem boxCompare_symm (a b : CollisionBox) :
    boxCompare a b = boxCompare b a := by
  cases hab : boxCompare a b <;> cases hba : boxCompare b a
  · rfl
  · exact hab ▸ boxCompare_true_of_rev b a hba
  · exact (hba ▸ boxCompare_true_of_rev a b hab).symm
  · rfl

/-- C6: the spec's concrete scenarios: identical boxes at x = 100 overlap;
boxes 180 pixels apart do not. -/
theorem boxCompare_spec_scenarios :
    boxCompare ⟨100, 0, 20, 20⟩ ⟨100, 0, 20, 20⟩ = true ∧
    boxCompare ⟨0, 0, 20, 20⟩ ⟨200, 0, 20, 20⟩ = false := by decide

/-- C7: updating a non-removed cloud scrolls it left by the ceiling of the
speed, and marks it removable exactly when its right edge
(`xPos + Cloud.config.WIDTH`) is no longer right of the viewport's left
edge. -/
theorem cloud_update_scroll_and_cull (c : Cloud) (speed : Rat)
    (h : c.remove = false) :
    (c.update speed).xPos = c.xPos - ⌈speed⌉ ∧
    ((c.update speed).remove = true ↔
      ¬ (c.xPos - ⌈speed⌉ + Cloud.config.WIDTH > 0)) := by
  unfold Cloud.update Cloud.isVisible
  simp only [h, Bool.not_false, if_true]
  by_cases hv : c.xPos - ⌈speed⌉ + Cloud.config.WIDTH > 0 <;>
    simp [hv]

/-- Witness for C7: a visible cloud at x = 40 scrolled at speed 2. -/
theorem cloud_update_scroll_and_cull_witness :
    ((⟨600, 40, 50, false, 200⟩ : Cloud).update 2).xPos = 40 - ⌈(2 : Rat)⌉ ∧
    (((⟨600, 40, 50, false, 200⟩ : Cloud).update 2).remove = true ↔
      ¬ ((40 : Int) - ⌈(2 : Rat)⌉ + Cloud.config.WIDTH > 0)) :=
  cloud_update_scroll_and_cull ⟨600, 40, 50, false, 200⟩ 2 rfl

/-- C8: once a cloud's `remove` flag is set, `Cloud.update` leaves the cloud
entirely unchanged, for every speed. -/
theorem cloud_update_removed_frozen (c : Cloud) (speed : Rat)
    (h : c.remove = true) : c.update speed = c := by
  unfold Cloud.update
  simp [h]

/-- Witness for C8: a removed cloud is untouched by an update at speed 3. -/
theorem cloud_update_removed_frozen_witness :
    (⟨600, -100, 50, true, 200⟩ : Cloud).update 3 =
      ⟨600, -100, 50, true, 200⟩ :=
  cloud_update_removed_frozen ⟨600, -100, 50, true, 200⟩ 3 rfl

/-- C9: a freshly constructed cloud has `yPos` in
`[MAX_SKY_LEVEL, MIN_SKY_LEVEL] = [30, 71]` and `gap` in
`[MIN_CLOUD_GAP, MAX_CLOUD_GAP] = [100, 400]`, and any sequence of updates
leaves `yPos` and `gap` unchanged, so the bounds hold over the cloud's whole
lifetime. -/
theorem cloud_lifetime_invariants (w : Int) (gapRand skyRand : Rat)
    (hg0 : 0 ≤ gapRand) (hg1 : gapRand < 1)
    (hs0 : 0 ≤ skyRand) (hs1 : skyRand < 1) (speeds : List Rat) :
    (speeds.foldl Cloud.update (Cloud.new w gapRand skyRand)).yPos =
      (Cloud.new w gapRand skyRand).yPos ∧
    (speeds.foldl Cloud.update (Cloud.new w gapRand skyRand)).gap =
      (Cloud.new w gapRand skyRand).gap ∧
    Cloud.config.MAX_SKY_LEVEL ≤
      (speeds.foldl Cloud.update (Cloud.new w gapRand skyRand)).yPos ∧
    (speeds.foldl Cloud.update (Cloud.new w gapRand skyRand)).yPos ≤
      Cloud.config.MIN_SKY_LEVEL ∧
    Cloud.config.MIN_CLOUD_GAP ≤
      (speeds.foldl Cloud.update (Cloud.new w gapRand skyRand)).gap ∧
    (speeds.foldl Cloud.update (Cloud.new w gapRand skyRand)).gap ≤
      Cloud.config.MAX_CLOUD_GAP := by
  have hy : (Cloud.new w gapRand skyRand).yPos = getRandomNum 30 71 skyRand :=
    rfl
  have hgp : (Cloud.new w gapRand skyRand).gap = getRandomNum 100 400 gapRand :=
    rfl
  have hfold := foldl_update_yPos_gap speeds (Cloud.new w gapRand skyRand)
  have hyb := getRandomNum_bounds 30 71 skyRand (by omega) hs0 hs1
  have hgb := getRandomNum_bounds 100 400 gapRand (by omega) hg0 hg1
  refine ⟨hfold.1, hfold.2, ?_, ?_, ?_, ?_⟩ <;>
    simp only [hfold.1, hfold.2, hy, hgp, Cloud.config] <;> omega

/-- Witness for C9: a cloud built from random draws 1/2 and 0, updated once
at speed 2. -/
theorem cloud_lifetime_invariants_witness :
    (([2] : List Rat).foldl Cloud.update (Cloud.new 600 (1/2) 0)).yPos =
      (Cloud.new 600 (1/2) 0).yPos ∧
    (([2] : List Rat).foldl Cloud.update (Cloud.new 600 (1/2) 0)).gap =
      (Cloud.new 600 (1/2) 0).gap ∧
    Cloud.config.MAX_SKY_LEVEL ≤
      (([2] : List Rat).foldl Cloud.update (Cloud.new 600 (1/2) 0)).yPos ∧
    (([2] : List Rat).foldl Cloud.update (Cloud.new 600 (1/2) 0)).yPos ≤
      Cloud.config.MIN_SKY_LEVEL ∧
    Cloud.config.MIN_CLOUD_GAP ≤
      (([2] : List Rat).foldl Cloud.update (Cloud.new 600 (1/2) 0)).gap ∧
    (([2] : List Rat).foldl Cloud.update (Cloud.new 600 (1/2) 0)).gap ≤
      Cloud.config.MAX_CLOUD_GAP :=
  cloud_lifetime_invariants 600 (1/2) 0 (by norm_num) (by norm_num)
    (le_refl 0) (by norm_num) [2]

/-- C10: whenever `checkForCollision` returns a pair of boxes, that pair
passes `boxCompare`; the detector never reports a non-overlapping pair. -/
theorem checkForCollision_sound (env : RunnerEnv) (obstacle : Obstacle)
    (tRex : Trex) (a b : CollisionBox)
    (h : checkForCollision env obstacle tRex = some (a, b)) :
    boxCompare a b = true := by
  simp only [checkForCollision] at h
  split at h
  · exact outerLoop_sound _ _ _ _ (a, b) h
  · simp at h

/-- Witness for C10: a concrete detected collision whose returned pair does
overlap. -/
theorem checkForCollision_sound_witness :
    boxCompare ⟨1, 1, 5, 5⟩ ⟨1, 1, 5, 5⟩ = true :=
  checkForCollision_sound ⟨600, false, [], [], [⟨0, 0, 5, 5⟩]⟩
    ⟨0, 0, ⟨10, 10⟩, 1, [⟨0, 0, 5, 5⟩]⟩ ⟨0, 0, ⟨10, 10⟩, false⟩
    ⟨1, 1, 5, 5⟩ ⟨1, 1, 5, 5⟩ (by decide)
